import Mathlib

/-
Shallow embedding of `src/grocery.py` (Grocery-list Manager, FastAPI + MongoDB).

The Mongo collection is modelled as a list of typed documents in insertion
order; every document stored by this service has the shape
`{_id: ObjectId, title: str, items: [{name, quantity, purchased}]}`.
`update_one` / `delete_one` / `find_one` act on the first document matching
the filter; `matched_count` counts filter matches (0 or 1 for these calls).
`ObjectId(s)` on a string succeeds exactly when `s` is a 24-character hex
string, and raises `bson.errors.InvalidId` otherwise; the Python handlers
never catch that exception, which is modelled by the `invalidIdError`
outcome (an unhandled fault escaping the handler, distinct from a raised
`HTTPException` which FastAPI turns into a structured error response).
-/

namespace GroceryManager

/-- `GroceryItem` pydantic model: `name : str`, `quantity : int`,
`purchased : bool = False`. -/
structure GroceryItem where
  name : String
  quantity : Int
  purchased : Bool
deriving DecidableEq, Repr

/-- A document as stored in the `grocery_lists` collection: the
store-assigned `_id` (its 24-hex-character payload), plus the fields of the
`GroceryList` pydantic model (`title`, `items`). -/
structure GroceryDoc where
  oid : String
  title : String
  items : List GroceryItem
deriving DecidableEq, Repr

/-- The Mongo collection, in insertion (natural) order. -/
abbrev Store := List GroceryDoc

/-- A character bson accepts inside an ObjectId hex string. -/
def isHexDigit (c : Char) : Bool :=
  c.isDigit || (Char.ofNat 97 ≤ c && c ≤ Char.ofNat 102) ||
    (Char.ofNat 65 ≤ c && c ≤ Char.ofNat 70)

/-- `ObjectId(s)` succeeds on a string iff it is 24 hex characters;
otherwise the constructor raises `bson.errors.InvalidId`. -/
def isValidObjectId (s : String) : Bool :=
  s.length == 24 && s.toList.all isHexDigit

/-- A value stored under a key of a response dict: the store's native
ObjectId (`vOid`), a plain string (`vStr`), or the items array (`vItems`). -/
inductive DictVal where
  | vOid (s : String)
  | vStr (s : String)
  | vItems (xs : List GroceryItem)
deriving DecidableEq, Repr

/-- Outcome of one handler call: a normal return value, a raised
`HTTPException status_code detail` (handled by FastAPI), or an uncaught
`bson.errors.InvalidId` escaping the handler. -/
inductive HandlerResult (α : Type) where
  | ok (val : α)
  | httpError (status : Nat) (detail : String)
  | invalidIdError
deriving DecidableEq, Repr

/-- The raw dict `find` / `find_one` returns for a stored document. -/
def docToDict (d : GroceryDoc) : List (String × DictVal) :=
  [("_id", DictVal.vOid d.oid), ("title", DictVal.vStr d.title),
   ("items", DictVal.vItems d.items)]

/-- Python `str(...)` applied to a dict value: renders a native ObjectId to
its hex string, leaves anything else unchanged. -/
def strOfVal : DictVal → DictVal
  | DictVal.vOid s => DictVal.vStr s
  | v => v

/-- `object_id_to_str`: `item["_id"] = str(item["_id"]); return item`. -/
def object_id_to_str (item : List (String × DictVal)) : List (String × DictVal) :=
  item.map (fun kv => if kv.1 == "_id" then (kv.1, strOfVal kv.2) else kv)

/-- `collection.find_one(filter)`: the first document matching the filter. -/
def mongoFindFirst (p : GroceryDoc → Bool) (store : Store) : Option GroceryDoc :=
  store.find? p

/-- `collection.update_one(filter, update)`: applies `f` to the first
document matching `p`; returns the new collection and `matched_count`. -/
def updateFirst (p : GroceryDoc → Bool) (f : GroceryDoc → GroceryDoc) :
    Store → Store × Nat
  | [] => ([], 0)
  | d :: rest =>
    if p d then (f d :: rest, 1)
    else
      let r := updateFirst p f rest
      (d :: r.1, r.2)

/-- `collection.delete_one(filter)`: removes the first document matching
`p`; returns the new collection and `deleted_count`. -/
def deleteFirst (p : GroceryDoc → Bool) : Store → Store × Nat
  | [] => ([], 0)
  | d :: rest =>
    if p d then (rest, 1)
    else
      let r := deleteFirst p rest
      (d :: r.1, r.2)

/-- The `$set {"items.$.purchased": b}` update under a filter on
`items.name`: the positional `$` operator targets the first array element
whose `name` equals `n`. -/
def setFirstPurchased (n : String) (b : Bool) : List GroceryItem → List GroceryItem
  | [] => []
  | i :: rest =>
    if i.name == n then ⟨i.name, i.quantity, b⟩ :: rest
    else i :: setFirstPurchased n b rest

/-- POST `/grocery-lists/`: `insert_one(grocery_list.dict())`, then return
`{"message": ..., "id": str(result.inserted_id)}`. The store-assigned fresh
ObjectId is an explicit oracle argument `newOid`. Returns the new
collection with (message, id) of the response body. -/
def create_grocery_list (store : Store) (newOid : String) (new_title : String)
    (new_items : List GroceryItem) : Store × (String × String) :=
  (store ++ [⟨newOid, new_title, new_items⟩],
   ("Grocery list created successfully", newOid))

/-- GET `/grocery-lists/`: `find()` everything, `object_id_to_str` each. -/
def get_all_grocery_lists (store : Store) : List (List (String × DictVal)) :=
  store.map (fun d => object_id_to_str (docToDict d))

/-- GET `/grocery-lists/{list_id}`: `find_one({"_id": ObjectId(list_id)})`,
404 when nothing matches, else the dict with `_id` stringified. -/
def get_grocery_list (store : Store) (list_id : String) :
    HandlerResult (List (String × DictVal)) :=
  if isValidObjectId list_id then
    match mongoFindFirst (fun d => d.oid == list_id) store with
    | none => .httpError 404 "Grocery list not found"
    | some d => .ok (object_id_to_str (docToDict d))
  else .invalidIdError

/-- PUT `/grocery-lists/{list_id}`: `update_one({"_id": oid},
{"$set": updated_list.dict()})` — sets `title` and the whole `items` array;
404 when `matched_count == 0`. -/
def update_grocery_list (store : Store) (list_id new_title : String)
    (new_items : List GroceryItem) : HandlerResult String × Store :=
  if isValidObjectId list_id then
    let r := updateFirst (fun d => d.oid == list_id)
      (fun d => ⟨d.oid, new_title, new_items⟩) store
    if r.2 == 0 then (.httpError 404 "Grocery list not found", r.1)
    else (.ok "Grocery list updated successfully", r.1)
  else (.invalidIdError, store)

/-- DELETE `/grocery-lists/{list_id}`: `delete_one({"_id": oid})`; 404 when
`deleted_count == 0`. -/
def delete_grocery_list (store : Store) (list_id : String) :
    HandlerResult String × Store :=
  if isValidObjectId list_id then
    let r := deleteFirst (fun d => d.oid == list_id) store
    if r.2 == 0 then (.httpError 404 "Grocery list not found", r.1)
    else (.ok "Grocery list deleted successfully", r.1)
  else (.invalidIdError, store)

/-- POST `/grocery-lists/{list_id}/items`: `update_one({"_id": oid},
{"$push": {"items": item.dict()}})` — appends to the end of `items`; 404
when `matched_count == 0`. -/
def add_item_to_grocery_list (store : Store) (list_id : String)
    (item : GroceryItem) : HandlerResult String × Store :=
  if isValidObjectId list_id then
    let r := updateFirst (fun d => d.oid == list_id)
      (fun d => ⟨d.oid, d.title, d.items ++ [item]⟩) store
    if r.2 == 0 then (.httpError 404 "Grocery list not found", r.1)
    else (.ok "Item added to grocery list", r.1)
  else (.invalidIdError, store)

/-- PUT `/grocery-lists/{list_id}/items/{item_name}`:
`update_one({"_id": oid, "items.name": item_name},
{"$set": {"items.$.purchased": purchased}})` — the filter matches a
document only when it also has some item named `item_name`, and `$`
targets the first such item; 404 when `matched_count == 0`. -/
def update_item_status (store : Store) (list_id item_name : String)
    (purchased : Bool) : HandlerResult String × Store :=
  if isValidObjectId list_id then
    let r := updateFirst
      (fun d => d.oid == list_id && d.items.any (fun i => i.name == item_name))
      (fun d => ⟨d.oid, d.title, setFirstPurchased item_name purchased d.items⟩)
      store
    if r.2 == 0 then (.httpError 404 "Grocery list or item not found", r.1)
    else (.ok "Item status updated", r.1)
  else (.invalidIdError, store)

/-- DELETE `/grocery-lists/{list_id}/items/{item_name}`:
`update_one({"_id": oid}, {"$pull": {"items": {"name": item_name}}})` —
the filter is on `_id` only; `$pull` removes every matching array element;
404 when `matched_count == 0` (i.e. only when the list is missing). -/
def delete_item_from_grocery_list (store : Store) (list_id item_name : String) :
    HandlerResult String × Store :=
  if isValidObjectId list_id then
    let r := updateFirst (fun d => d.oid == list_id)
      (fun d => ⟨d.oid, d.title, d.items.filter (fun i => !(i.name == item_name))⟩)
      store
    if r.2 == 0 then (.httpError 404 "Grocery list or item not found", r.1)
    else (.ok "Item deleted from grocery list", r.1)
  else (.invalidIdError, store)

/-! Concrete sample data used by counterexamples and witnesses. -/

/-- A well-formed 24-hex-character ObjectId string. -/
def oid0 : String := "507f1f77bcf86cd799439011"

/-- A second, distinct well-formed ObjectId string. -/
def oid1 : String := "507f191e810c19729de860ea"

/-- Sample item from the spec example. -/
def milk : GroceryItem := ⟨"milk", 2, false⟩

/-- A second sample item. -/
def bread : GroceryItem := ⟨"bread", 1, true⟩

/-- Sample stored document. -/
def weekly : GroceryDoc := ⟨oid0, "Weekly", [milk]⟩

/-- Sample stored document with two distinct item names. -/
def weekly2 : GroceryDoc := ⟨oid1, "Weekly2", [milk, bread]⟩

/-- Sample stored document with a duplicated item name. -/
def dup : GroceryDoc := ⟨oid1, "Dup", [milk, ⟨"milk", 5, true⟩, bread]⟩

/-! Helper lemmas about the collection primitives. -/

theorem mongoFindFirst_append_of_none {p : GroceryDoc → Bool} {pre rest : Store}
    (h : ∀ d ∈ pre, p d = false) :
    mongoFindFirst p (pre ++ rest) = mongoFindFirst p rest := by
  induction pre with
  | nil => rfl
  | cons d ds ih =>
    simp only [mongoFindFirst, List.cons_append, List.find?]
    rw [h d (List.mem_cons_self d ds)]
    exact ih fun e he => h e (List.mem_cons_of_mem d he)

theorem updateFirst_append_of_none {p : GroceryDoc → Bool} {f : GroceryDoc → GroceryDoc}
    {pre rest : Store} (h : ∀ d ∈ pre, p d = false) :
    updateFirst p f (pre ++ rest) =
      (pre ++ (updateFirst p f rest).1, (updateFirst p f rest).2) := by
  induction pre with
  | nil => rfl
  | cons d ds ih =>
    have hd := h d (List.mem_cons_self d ds)
    have ih' := ih fun e he => h e (List.mem_cons_of_mem d he)
    simp [updateFirst, hd, ih']

theorem updateFirst_cons_of_pos {p : GroceryDoc → Bool} {f : GroceryDoc → GroceryDoc}
    {d : GroceryDoc} {rest : Store} (h : p d = true) :
    updateFirst p f (d :: rest) = (f d :: rest, 1) := by
  simp [updateFirst, h]

theorem updateFirst_of_none {p : GroceryDoc → Bool} {f : GroceryDoc → GroceryDoc}
    {s : Store} (h : ∀ d ∈ s, p d = false) :
    updateFirst p f s = (s, 0) := by
  induction s with
  | nil => rfl
  | cons d ds ih =>
    simp only [updateFirst, h d (List.mem_cons_self d ds)]
    rw [ih fun e he => h e (List.mem_cons_of_mem d he)]
    simp

theorem deleteFirst_append_of_none {p : GroceryDoc → Bool} {pre rest : Store}
    (h : ∀ d ∈ pre, p d = false) :
    deleteFirst p (pre ++ rest) =
      (pre ++ (deleteFirst p rest).1, (deleteFirst p rest).2) := by
  induction pre with
  | nil => rfl
  | cons d ds ih =>
    have hd := h d (List.mem_cons_self d ds)
    have ih' := ih fun e he => h e (List.mem_cons_of_mem d he)
    simp [deleteFirst, hd, ih']

theorem setFirstPurchased_append_of_none {n : String} {b : Bool}
    {ipre rest : List GroceryItem} (h : ∀ i ∈ ipre, (i.name == n) = false) :
    setFirstPurchased n b (ipre ++ rest) = ipre ++ setFirstPurchased n b rest := by
  induction ipre with
  | nil => rfl
  | cons i is ih =>
    have hi := h i (List.mem_cons_self i is)
    have ih' := ih fun j hj => h j (List.mem_cons_of_mem i hj)
    simp [setFirstPurchased, hi, ih']

theorem setFirstPurchased_cons_of_pos {n : String} {b : Bool} {i : GroceryItem}
    {rest : List GroceryItem} (h : (i.name == n) = true) :
    setFirstPurchased n b (i :: rest) = ⟨i.name, i.quantity, b⟩ :: rest := by
  simp [setFirstPurchased, h]

/-! Claim C1. -/

/-- C1, counterexample: `GetList` on the malformed id `"xyz"` lets the
`bson.errors.InvalidId` raised by `ObjectId("xyz")` escape the handler (an
unhandled exception), instead of returning an `InvalidIdentifier`/`NotFound`
error result, so the claim fails as stated. -/
theorem groceryC1_counterexample :
    get_grocery_list [] "xyz" = HandlerResult.invalidIdError := by rfl

/-- C1, amended: for every operation taking a list id and every input
string that is not a valid ObjectId format, the `ObjectId` constructor
raises `bson.errors.InvalidId`, which escapes the handler unhandled (it is
not converted into an `InvalidIdentifier`/`NotFound` error result); the
store is left unchanged. -/
theorem groceryC1_amended (store : Store) (s : String)
    (hs : isValidObjectId s = false) (new_title : String)
    (new_items : List GroceryItem) (item : GroceryItem) (n : String) (b : Bool) :
    get_grocery_list store s = HandlerResult.invalidIdError ∧
    update_grocery_list store s new_title new_items =
      (HandlerResult.invalidIdError, store) ∧
    delete_grocery_list store s = (HandlerResult.invalidIdError, store) ∧
    add_item_to_grocery_list store s item = (HandlerResult.invalidIdError, store) ∧
    update_item_status store s n b = (HandlerResult.invalidIdError, store) ∧
    delete_item_from_grocery_list store s n = (HandlerResult.invalidIdError, store) := by
  refine ⟨?_, ?_, ?_, ?_, ?_, ?_⟩ <;>
    simp [get_grocery_list, update_grocery_list, delete_grocery_list,
      add_item_to_grocery_list, update_item_status,
      delete_item_from_grocery_list, hs]

/-- C1, witness: the amended theorem applied at `"xyz"` on a one-document
store. -/
theorem groceryC1_witness :
    get_grocery_list [weekly] "xyz" = HandlerResult.invalidIdError ∧
    update_grocery_list [weekly] "xyz" "T" [] =
      (HandlerResult.invalidIdError, [weekly]) ∧
    delete_grocery_list [weekly] "xyz" = (HandlerResult.invalidIdError, [weekly]) ∧
    add_item_to_grocery_list [weekly] "xyz" bread =
      (HandlerResult.invalidIdError, [weekly]) ∧
    update_item_status [weekly] "xyz" "milk" true =
      (HandlerResult.invalidIdError, [weekly]) ∧
    delete_item_from_grocery_list [weekly] "xyz" "milk" =
      (HandlerResult.invalidIdError, [weekly]) :=
  groceryC1_amended [weekly] "xyz" (by decide) "T" [] bread "milk" true

/-! Claim C2. -/

/-- C2, counterexample: the list `weekly` (items `[milk]`) has no item
named `"bread"`, yet `DeleteItem` returns the success message, not
`NotFound`: the filter of the `$pull` update is on `_id` alone, so
`matched_count` is 1 whenever the list exists. The list is left
unchanged. -/
theorem groceryC2_counterexample :
    delete_item_from_grocery_list [weekly] oid0 "bread" =
      (HandlerResult.ok "Item deleted from grocery list", [weekly]) := by decide

/-- C2, amended: for every stored list L and item name n with no match in
L, `DeleteItem(L.id, n)` leaves L unchanged but returns the success
confirmation; `NotFound` is returned only when no list has the given id. -/
theorem groceryC2_amended (pre post : Store) (d : GroceryDoc) (n : String)
    (hvalid : isValidObjectId d.oid = true)
    (hpre : ∀ e ∈ pre, e.oid ≠ d.oid)
    (hnone : ∀ i ∈ d.items, i.name ≠ n) :
    delete_item_from_grocery_list (pre ++ d :: post) d.oid n =
      (HandlerResult.ok "Item deleted from grocery list", pre ++ d :: post) := by
  have hpre' : ∀ e ∈ pre, (e.oid == d.oid) = false :=
    fun e he => beq_eq_false_iff_ne.mpr (hpre e he)
  have hfilter : d.items.filter (fun i => !(i.name == n)) = d.items :=
    List.filter_eq_self.mpr fun i hi => by
      simp [beq_eq_false_iff_ne.mpr (hnone i hi)]
  simp [delete_item_from_grocery_list, hvalid,
    updateFirst_append_of_none hpre', updateFirst, hfilter]

/-- C2, witness: the amended theorem applied to the store `[weekly]` with
the unmatched item name `"bread"`. -/
theorem groceryC2_witness :
    delete_item_from_grocery_list ([] ++ weekly :: []) weekly.oid "bread" =
      (HandlerResult.ok "Item deleted from grocery list", [] ++ weekly :: []) :=
  groceryC2_amended [] [] weekly "bread" (by decide) (by simp) (by decide)

/-! Claim C3. -/

/-- C3: creating a list and then fetching it by the id the creation
returned yields a response whose `title` equals the supplied title and
whose `items` equal the supplied items (round-trip). The store-assigned id
is a well-formed ObjectId that is fresh (not already present). -/
theorem groceryC3_roundtrip (store : Store) (newOid new_title : String)
    (new_items : List GroceryItem)
    (hvalid : isValidObjectId newOid = true)
    (hfresh : ∀ d ∈ store, d.oid ≠ newOid) :
    ∃ kvs,
      get_grocery_list (create_grocery_list store newOid new_title new_items).1
          (create_grocery_list store newOid new_title new_items).2.2 =
        HandlerResult.ok kvs ∧
      kvs.lookup "title" = some (DictVal.vStr new_title) ∧
      kvs.lookup "items" = some (DictVal.vItems new_items) := by
  have hfresh' : ∀ d ∈ store, ((d.oid == newOid) : Bool) = false :=
    fun d hd => beq_eq_false_iff_ne.mpr (hfresh d hd)
  have hfind : mongoFindFirst (fun d => d.oid == newOid)
      [(⟨newOid, new_title, new_items⟩ : GroceryDoc)] =
      some ⟨newOid, new_title, new_items⟩ := by
    simp [mongoFindFirst]
  refine ⟨object_id_to_str (docToDict ⟨newOid, new_title, new_items⟩), ?_, ?_, ?_⟩
  · simp only [create_grocery_list, get_grocery_list, hvalid,
      mongoFindFirst_append_of_none hfresh', hfind, if_true]
  · rfl
  · rfl

/-- C3, witness: round-trip on the empty store with the spec's example
list. -/
theorem groceryC3_witness :
    ∃ kvs,
      get_grocery_list (create_grocery_list [] oid0 "Weekly" [milk]).1
          (create_grocery_list [] oid0 "Weekly" [milk]).2.2 =
        HandlerResult.ok kvs ∧
      kvs.lookup "title" = some (DictVal.vStr "Weekly") ∧
      kvs.lookup "items" = some (DictVal.vItems [milk]) :=
  groceryC3_roundtrip [] oid0 "Weekly" [milk] (by decide) (by simp)

/-! Claim C4. -/

/-- C4, counterexample: `GetList` and `ListAll` return the identifier
under the key `"_id"` (the key `object_id_to_str` writes), not `"id"`:
looking up `"id"` in the returned dicts yields nothing. -/
theorem groceryC4_counterexample :
    get_grocery_list [weekly] oid0 =
      HandlerResult.ok [("_id", DictVal.vStr oid0), ("title", DictVal.vStr "Weekly"),
        ("items", DictVal.vItems [milk])] ∧
    List.lookup "id" [("_id", DictVal.vStr oid0), ("title", DictVal.vStr "Weekly"),
        ("items", DictVal.vItems [milk])] = (none : Option DictVal) ∧
    (get_all_grocery_lists [weekly]).map (List.lookup "id") = [none] := by
  refine ⟨?_, ?_, ?_⟩ <;> decide

/-- C4, amended: every GroceryList returned by `GetList` or `ListAll`
carries its store identifier under the field name `_id` (not `id`),
rendered as a string, never as the store's native ObjectId type. -/
theorem groceryC4_amended (store : Store) (list_id : String)
    (kvs : List (String × DictVal))
    (hget : get_grocery_list store list_id = HandlerResult.ok kvs) :
    ((∃ s, kvs.lookup "_id" = some (DictVal.vStr s)) ∧ kvs.lookup "id" = none) ∧
    ∀ r ∈ get_all_grocery_lists store,
      (∃ s, r.lookup "_id" = some (DictVal.vStr s)) ∧ r.lookup "id" = none := by
  have key : ∀ d : GroceryDoc,
      (object_id_to_str (docToDict d)).lookup "_id" = some (DictVal.vStr d.oid) ∧
      (object_id_to_str (docToDict d)).lookup "id" = none := fun d => ⟨rfl, rfl⟩
  constructor
  · cases hv : isValidObjectId list_id with
    | false => simp [get_grocery_list, hv] at hget
    | true =>
      simp only [get_grocery_list, hv, if_true] at hget
      split at hget
      · simp at hget
      · next d _ =>
        cases hget
        exact ⟨⟨d.oid, (key d).1⟩, (key d).2⟩
  · intro r hr
    simp only [get_all_grocery_lists, List.mem_map] at hr
    obtain ⟨d, _, rfl⟩ := hr
    exact ⟨⟨d.oid, (key d).1⟩, (key d).2⟩

/-- C4, witness: the amended theorem applied to the one-document store
`[weekly]`. -/
theorem groceryC4_witness :
    ((∃ s, List.lookup "_id" [("_id", DictVal.vStr oid0), ("title", DictVal.vStr "Weekly"),
        ("items", DictVal.vItems [milk])] = some (DictVal.vStr s)) ∧
      List.lookup "id" [("_id", DictVal.vStr oid0), ("title", DictVal.vStr "Weekly"),
        ("items", DictVal.vItems [milk])] = none) ∧
    ∀ r ∈ get_all_grocery_lists [weekly],
      (∃ s, r.lookup "_id" = some (DictVal.vStr s)) ∧ r.lookup "id" = none :=
  groceryC4_amended [weekly] oid0
    [("_id", DictVal.vStr oid0), ("title", DictVal.vStr "Weekly"),
      ("items", DictVal.vItems [milk])] (by decide)

/-! Claim C5. -/

/-- C5: `ReplaceList` on a stored list sets its title to the new title and
replaces its entire items sequence with the new items (full overwrite, not
merge; in particular a replacement with the empty sequence leaves zero
items), leaving every other document unchanged. -/
theorem groceryC5_replace (pre post : Store) (d : GroceryDoc)
    (new_title : String) (new_items : List GroceryItem)
    (hvalid : isValidObjectId d.oid = true)
    (hpre : ∀ e ∈ pre, e.oid ≠ d.oid) :
    update_grocery_list (pre ++ d :: post) d.oid new_title new_items =
      (HandlerResult.ok "Grocery list updated successfully",
        pre ++ (⟨d.oid, new_title, new_items⟩ : GroceryDoc) :: post) := by
  have hpre' : ∀ e ∈ pre, (e.oid == d.oid) = false :=
    fun e he => beq_eq_false_iff_ne.mpr (hpre e he)
  simp [update_grocery_list, hvalid, updateFirst_append_of_none hpre', updateFirst]

/-- C5, witness: replacing `weekly` (one item) with an empty item sequence
leaves the stored list with zero items. -/
theorem groceryC5_witness :
    update_grocery_list ([] ++ weekly :: []) weekly.oid "Weekend" [] =
      (HandlerResult.ok "Grocery list updated successfully",
        [] ++ (⟨weekly.oid, "Weekend", []⟩ : GroceryDoc) :: []) :=
  groceryC5_replace [] [] weekly "Weekend" [] (by decide) (by simp)

/-! Claim C6. -/

/-- C6: `AddItem` appends the supplied item, with exactly the supplied
fields, to the end of the stored list's items sequence — no duplicate-name
check — increasing the item count by exactly one; every other document is
unchanged. -/
theorem groceryC6_addItem (pre post : Store) (d : GroceryDoc) (item : GroceryItem)
    (hvalid : isValidObjectId d.oid = true)
    (hpre : ∀ e ∈ pre, e.oid ≠ d.oid) :
    add_item_to_grocery_list (pre ++ d :: post) d.oid item =
      (HandlerResult.ok "Item added to grocery list",
        pre ++ (⟨d.oid, d.title, d.items ++ [item]⟩ : GroceryDoc) :: post) ∧
    (d.items ++ [item]).length = d.items.length + 1 := by
  have hpre' : ∀ e ∈ pre, (e.oid == d.oid) = false :=
    fun e he => beq_eq_false_iff_ne.mpr (hpre e he)
  refine ⟨?_, by simp⟩
  simp [add_item_to_grocery_list, hvalid, updateFirst_append_of_none hpre',
    updateFirst]

/-- C6, witness: adding a second `milk` item to `weekly` (which already
has one) appends it with the supplied fields and grows the count from 1 to
2, showing there is no duplicate-name check. -/
theorem groceryC6_witness :
    add_item_to_grocery_list ([] ++ weekly :: []) weekly.oid ⟨"milk", 5, true⟩ =
      (HandlerResult.ok "Item added to grocery list",
        [] ++ (⟨weekly.oid, weekly.title, weekly.items ++ [⟨"milk", 5, true⟩]⟩ :
          GroceryDoc) :: []) ∧
    (weekly.items ++ [(⟨"milk", 5, true⟩ : GroceryItem)]).length =
      weekly.items.length + 1 :=
  groceryC6_addItem [] [] weekly ⟨"milk", 5, true⟩ (by decide) (by simp)

/-! Claim C7. -/

/-- C7: `UpdateItemPurchased` on a stored list containing an item named n
(the decomposition exposes the first such item) sets only that item's
`purchased` field to the supplied boolean; its `name` and `quantity`, all
other items, the list's title and every other document are unchanged. -/
theorem groceryC7_framePurchased (pre post : Store) (ipre ipost : List GroceryItem)
    (it : GroceryItem) (oid ttl n : String) (b : Bool)
    (hvalid : isValidObjectId oid = true)
    (hpre : ∀ e ∈ pre, e.oid ≠ oid)
    (hipre : ∀ j ∈ ipre, j.name ≠ n)
    (hit : it.name = n) :
    update_item_status
        (pre ++ (⟨oid, ttl, ipre ++ it :: ipost⟩ : GroceryDoc) :: post) oid n b =
      (HandlerResult.ok "Item status updated",
        pre ++ (⟨oid, ttl,
          ipre ++ (⟨it.name, it.quantity, b⟩ : GroceryItem) :: ipost⟩ :
            GroceryDoc) :: post) := by
  have hpre' : ∀ e ∈ pre,
      (e.oid == oid && e.items.any (fun i => i.name == n)) = false :=
    fun e he => by simp [beq_eq_false_iff_ne.mpr (hpre e he)]
  have hipre' : ∀ j ∈ ipre, (j.name == n) = false :=
    fun j hj => beq_eq_false_iff_ne.mpr (hipre j hj)
  have hset : setFirstPurchased n b (ipre ++ it :: ipost) =
      ipre ++ (⟨it.name, it.quantity, b⟩ : GroceryItem) :: ipost := by
    rw [setFirstPurchased_append_of_none hipre',
      setFirstPurchased_cons_of_pos (by simp [hit])]
  simp [update_item_status, hvalid, updateFirst_append_of_none hpre',
    updateFirst, hit, hset]

/-- C7, witness: marking `bread` purchased inside `weekly2 = [milk, bread]`
touches only the `purchased` field of `bread`. -/
theorem groceryC7_witness :
    update_item_status
        ([] ++ (⟨oid1, "Weekly2", [milk] ++ bread :: []⟩ : GroceryDoc) :: [])
        oid1 "bread" false =
      (HandlerResult.ok "Item status updated",
        [] ++ (⟨oid1, "Weekly2",
          [milk] ++ (⟨bread.name, bread.quantity, false⟩ : GroceryItem) :: []⟩ :
            GroceryDoc) :: []) :=
  groceryC7_framePurchased [] [] [milk] [] bread oid1 "Weekly2" "bread" false
    (by decide) (by simp) (by decide) rfl

/-! Claim C8. -/

/-- C8: `UpdateItemPurchased` returns the one collapsed `NotFound` error —
the literal 404 `"Grocery list or item not found"` — whenever no stored
list with the given id has an item with the given name; this hypothesis
covers both the list-missing case and the item-missing case, and the
result value (and untouched store) is identical in both, so the caller
cannot distinguish them. -/
theorem groceryC8_notFoundCollapse (store : Store) (list_id n : String) (b : Bool)
    (hvalid : isValidObjectId list_id = true)
    (hmiss : ∀ d ∈ store, d.oid = list_id → ∀ i ∈ d.items, i.name ≠ n) :
    update_item_status store list_id n b =
      (HandlerResult.httpError 404 "Grocery list or item not found", store) := by
  have hnone : ∀ d ∈ store,
      (d.oid == list_id && d.items.any (fun i => i.name == n)) = false := by
    intro d hd
    by_cases hoid : d.oid = list_id
    · have hany : d.items.any (fun i => i.name == n) = false := by
        rw [Bool.eq_false_iff]
        intro hc
        obtain ⟨i, hi, hin⟩ := List.any_eq_true.mp hc
        exact hmiss d hd hoid i hi (by exact beq_iff_eq.mp hin)
      simp [hany]
    · simp [beq_eq_false_iff_ne.mpr hoid]
  simp [update_item_status, hvalid, updateFirst_of_none hnone]

/-- C8, witness: the theorem applied once with the list missing (empty
store) and once with the list present but the item name absent; both give
the very same error result. -/
theorem groceryC8_witness :
    update_item_status [] oid0 "bread" true =
      (HandlerResult.httpError 404 "Grocery list or item not found", []) ∧
    update_item_status [weekly] oid0 "bread" true =
      (HandlerResult.httpError 404 "Grocery list or item not found", [weekly]) :=
  ⟨groceryC8_notFoundCollapse [] oid0 "bread" true (by decide) (by simp),
   groceryC8_notFoundCollapse [weekly] oid0 "bread" true (by decide) (by decide)⟩

/-! Claim C9. -/

/-- C9: when a stored list holds two or more items sharing the name n
(the decomposition exposes a first match `it` and a later match `jt`),
`UpdateItemPurchased` updates exactly the first match: `it` gets the new
`purchased` value while `jt` and everything after it are unchanged. -/
theorem groceryC9_firstDuplicateOnly (pre post : Store)
    (ipre imid ipost : List GroceryItem) (it jt : GroceryItem)
    (oid ttl n : String) (b : Bool)
    (hvalid : isValidObjectId oid = true)
    (hpre : ∀ e ∈ pre, e.oid ≠ oid)
    (hipre : ∀ j ∈ ipre, j.name ≠ n)
    (hit : it.name = n) (_hjt : jt.name = n) :
    update_item_status
        (pre ++ (⟨oid, ttl, ipre ++ it :: (imid ++ jt :: ipost)⟩ : GroceryDoc) :: post)
        oid n b =
      (HandlerResult.ok "Item status updated",
        pre ++ (⟨oid, ttl,
          ipre ++ (⟨it.name, it.quantity, b⟩ : GroceryItem) :: (imid ++ jt :: ipost)⟩ :
            GroceryDoc) :: post) := by
  have hpre' : ∀ e ∈ pre,
      (e.oid == oid && e.items.any (fun i => i.name == n)) = false :=
    fun e he => by simp [beq_eq_false_iff_ne.mpr (hpre e he)]
  have hipre' : ∀ j ∈ ipre, (j.name == n) = false :=
    fun j hj => beq_eq_false_iff_ne.mpr (hipre j hj)
  have hset : setFirstPurchased n b (ipre ++ it :: (imid ++ jt :: ipost)) =
      ipre ++ (⟨it.name, it.quantity, b⟩ : GroceryItem) :: (imid ++ jt :: ipost) := by
    rw [setFirstPurchased_append_of_none hipre',
      setFirstPurchased_cons_of_pos (by simp [hit])]
  simp [update_item_status, hvalid, updateFirst_append_of_none hpre',
    updateFirst, hit, hset]

/-- C9, witness: with items `[milk, milk5, bread]` where `milk5` is a
second item named `"milk"`, updating `"milk"` flips only the first milk;
the second keeps `purchased = true`, `quantity = 5`. -/
theorem groceryC9_witness :
    update_item_status
        ([] ++ (⟨oid1, "Dup",
          [] ++ milk :: ([] ++ (⟨"milk", 5, true⟩ : GroceryItem) :: [bread])⟩ :
            GroceryDoc) :: []) oid1 "milk" true =
      (HandlerResult.ok "Item status updated",
        [] ++ (⟨oid1, "Dup",
          [] ++ (⟨milk.name, milk.quantity, true⟩ : GroceryItem) ::
            ([] ++ (⟨"milk", 5, true⟩ : GroceryItem) :: [bread])⟩ : GroceryDoc) :: []) :=
  groceryC9_firstDuplicateOnly [] [] [] [] [bread] milk ⟨"milk", 5, true⟩
    oid1 "Dup" "milk" true (by decide) (by simp) (by simp) rfl rfl

/-! Claim C10. -/

/-- C10: `DeleteItem` removes every item whose name matches, not only the
first — the stored items become exactly the original sequence filtered of
all matches (shown here under the premise that at least two items match),
and no item with the deleted name survives. -/
theorem groceryC10_deleteAllMatches (pre post : Store) (d : GroceryDoc) (n : String)
    (hvalid : isValidObjectId d.oid = true)
    (hpre : ∀ e ∈ pre, e.oid ≠ d.oid)
    (_hdup : 2 ≤ (d.items.filter (fun i => i.name == n)).length) :
    delete_item_from_grocery_list (pre ++ d :: post) d.oid n =
      (HandlerResult.ok "Item deleted from grocery list",
        pre ++ (⟨d.oid, d.title, d.items.filter (fun i => !(i.name == n))⟩ :
          GroceryDoc) :: post) ∧
    ∀ i ∈ d.items.filter (fun i => !(i.name == n)), i.name ≠ n := by
  have hpre' : ∀ e ∈ pre, (e.oid == d.oid) = false :=
    fun e he => beq_eq_false_iff_ne.mpr (hpre e he)
  constructor
  · simp [delete_item_from_grocery_list, hvalid,
      updateFirst_append_of_none hpre', updateFirst]
  · intro i hi hn
    have hkeep := List.of_mem_filter hi
    simp [hn] at hkeep

/-- C10, witness: deleting `"milk"` from `dup = [milk, milk5, bread]`,
which has two items named `"milk"`, removes both and keeps `bread`. -/
theorem groceryC10_witness :
    delete_item_from_grocery_list ([] ++ dup :: []) dup.oid "milk" =
      (HandlerResult.ok "Item deleted from grocery list",
        [] ++ (⟨dup.oid, dup.title,
          dup.items.filter (fun i => !(i.name == "milk"))⟩ : GroceryDoc) :: []) ∧
    ∀ i ∈ dup.items.filter (fun i => !(i.name == "milk")), i.name ≠ "milk" :=
  groceryC10_deleteAllMatches [] [] dup "milk" (by decide) (by simp) (by decide)

end GroceryManager
